import Mathlib

/-!
Shallow embedding of `src/ga4gh/datamodel/rna_quantification.py`.

The sqlite tables are modelled as Lean lists of typed rows, in store order.
Float-valued columns are modelled as rationals (the code only stores,
copies and compares them with `>=`).  The fixed SQL query shapes of
`SqliteRNABackend` become pure functions over the row lists: the `WHERE`
clause is a `List.filter`, and `LIMIT pageSize OFFSET pageToken` is
`drop`/`take`.  Python's `None` page size is an `Option.none`.
-/

/-- A row of the sqlite `Expression` table (schema from the module doc and
the columns read by `ExpressionLevel.__init__`). -/
structure ExpressionRow where
  id : String
  name : String
  feature_id : String
  rna_quantification_id : String
  expression : ℚ
  is_normalized : Int
  raw_read_count : ℚ
  score : ℚ
  units : Int
  conf_low : ℚ
  conf_hi : ℚ
deriving DecidableEq, Repr

/-- A row of the sqlite `RnaQuantification` table (the columns read by
`AbstractRNAQuantification.addRnaQuantMetadata`). -/
structure RnaQuantificationRow where
  id : String
  name : String
  description : String
  feature_set_ids : String
  read_group_ids : String
  programs : String
deriving DecidableEq, Repr

/-- The state of a hydrated `ExpressionLevel` object: the instance
attributes set by `ExpressionLevel.__init__` (lines 69-80). -/
structure ExpressionLevelObj where
  localId : String
  expression : ℚ
  featureId : String
  isNormalized : Bool
  rawReadCount : ℚ
  score : ℚ
  units : Int
  name : String
  confIntervalLow : ℚ
  confIntervalHigh : ℚ
deriving DecidableEq, Repr

/-- `ExpressionLevel.__init__(parentContainer, record)`: hydration of an
`ExpressionLevelObj` from an `Expression` row.  The source assigns
`self._featureId = record["id"]` (the row `id` column, not the row
`feature_id` column) and coerces the stored integer via `bool(...)`. -/
def ExpressionLevel.init (record : ExpressionRow) : ExpressionLevelObj :=
  { localId := record.id
    expression := record.expression
    featureId := record.id
    isNormalized := decide (record.is_normalized ≠ 0)
    rawReadCount := record.raw_read_count
    score := record.score
    units := record.units
    name := record.name
    confIntervalLow := record.conf_low
    confIntervalHigh := record.conf_hi }

/-- The transfer object built by
`AbstractExpressionLevel.toProtocolElement` (lines 48-61). -/
structure ProtocolExpressionLevel where
  id : String
  name : String
  feature_id : String
  rna_quantification_id : String
  raw_read_count : ℚ
  expression : ℚ
  is_normalized : Bool
  units : Int
  score : ℚ
  conf_interval_low : ℚ
  conf_interval_high : ℚ
deriving DecidableEq, Repr

/-- `AbstractExpressionLevel.toProtocolElement`.  `self.getId()` and
`self._parentContainer.getId()` are compound-id strings supplied by the
container tree; they are passed in as parameters here. -/
def AbstractExpressionLevel.toProtocolElement (selfId parentContainerId : String)
    (e : ExpressionLevelObj) : ProtocolExpressionLevel :=
  { id := selfId
    name := e.name
    feature_id := e.featureId
    rna_quantification_id := parentContainerId
    raw_read_count := e.rawReadCount
    expression := e.expression
    is_normalized := e.isNormalized
    units := e.units
    score := e.score
    conf_interval_low := e.confIntervalLow
    conf_interval_high := e.confIntervalHigh }

/-- The metadata attributes of an `AbstractRNAQuantification` object as
set by `addRnaQuantMetadata` (lines 231-249). -/
structure RnaQuantObj where
  featureSetIds : List String
  description : String
  name : String
  readGroupIds : List String
  programs : List String
deriving DecidableEq, Repr

/-- Helper for `pySplit`: walks the character list, accumulating the
current segment (in reverse) and emitting it at each separator. -/
def pySplitAux (sep : Char) : List Char → List Char → List String
  | acc, [] => [String.mk acc.reverse]
  | acc, c :: cs =>
    if c = sep then String.mk acc.reverse :: pySplitAux sep [] cs
    else pySplitAux sep (c :: acc) cs

/-- Python's `s.split(sep)` for a one-character separator `sep`: splits at
every occurrence, keeps empty segments, and maps the empty string to a
singleton list holding the empty string. -/
def pySplit (s : String) (sep : Char) : List String :=
  pySplitAux sep [] s.toList

/-- `AbstractRNAQuantification.addRnaQuantMetadata(fields)` (lines
231-249).  Both branches of the `programs` conditional assign the empty
list (the source comment reads: need program ids here to build a list of
programs, for now set to empty). -/
def addRnaQuantMetadata (fields : RnaQuantificationRow) : RnaQuantObj :=
  { featureSetIds := pySplit fields.feature_set_ids ','
    description := fields.description
    name := fields.name
    readGroupIds :=
      if fields.read_group_ids = "" then []
      else pySplit fields.read_group_ids ','
    programs := if fields.programs = "" then [] else [] }

/-- The typed failures raised by `SqliteRNABackend` lookups
(`exceptions.RnaQuantificationNotFoundException` and
`exceptions.ExpressionLevelNotFoundException`), each carrying the
offending identifier. -/
inductive RnaError where
  | rnaQuantificationNotFound (id : String)
  | expressionLevelNotFound (id : String)
deriving DecidableEq, Repr

/-- Modelled from the spec: `sqliteBackend.limitsSql(pageToken, pageSize)`
is not under `src/`.  Per the spec, the scoped-list shape ends in
`LIMIT pageSize OFFSET pageToken`, where `pageToken` is a zero-based row
offset and an unset `pageSize` means no limit. -/
def limitsSql (pageToken : Nat) (pageSize : Option Nat) (rows : List α) : List α :=
  match pageSize with
  | some k => (rows.drop pageToken).take k
  | none => rows.drop pageToken

/-- The `WHERE` clause of `SqliteRNABackend.searchExpressionLevelsInDb`
(lines 386-395): scope by `rna_quantification_id`, always conjoin
`expression >= threshold`, and add the `feature_id IN (...)` clause only
when the supplied feature-id list is non-empty. -/
def matchingExpressionRows (table : List ExpressionRow) (rnaQuantId : String)
    (featureIds : List String) (threshold : ℚ) : List ExpressionRow :=
  table.filter (fun r =>
    r.rna_quantification_id == rnaQuantId
      && decide (threshold ≤ r.expression)
      && (featureIds.isEmpty || featureIds.contains r.feature_id))

/-- `SqliteRNABackend.searchExpressionLevelsInDb` (lines 376-398): the
`WHERE` clause followed by the pagination suffix.  `fetchall` returns a
plain list, so this query shape is total: it has no not-found raise
path. -/
def searchExpressionLevelsInDb (table : List ExpressionRow) (rnaQuantId : String)
    (featureIds : List String) (pageToken : Nat) (pageSize : Option Nat)
    (threshold : ℚ) : List ExpressionRow :=
  limitsSql pageToken pageSize (matchingExpressionRows table rnaQuantId featureIds threshold)

/-- `RNASeqResult.getExpressionLevels` (lines 311-322): runs the search
and hydrates each returned row into an `ExpressionLevelObj`. -/
def getExpressionLevels (table : List ExpressionRow) (rnaQuantID : String)
    (pageToken : Nat) (pageSize : Option Nat) (threshold : ℚ)
    (featureIds : List String) : List ExpressionLevelObj :=
  (searchExpressionLevelsInDb table rnaQuantID featureIds pageToken pageSize threshold).map
    ExpressionLevel.init

/-- The `WHERE` clause of `SqliteRNABackend.searchRnaQuantificationsInDb`
(lines 349-353): the `id = ?` restriction is added only when the id
argument is non-empty. -/
def matchingRnaQuantificationRows (table : List RnaQuantificationRow)
    (rnaQuantificationId : String) : List RnaQuantificationRow :=
  if rnaQuantificationId.length > 0 then
    table.filter (fun r => r.id == rnaQuantificationId)
  else table

/-- `SqliteRNABackend.searchRnaQuantificationsInDb` (lines 341-360): the
`WHERE` clause followed by the pagination suffix. -/
def searchRnaQuantificationsInDb (table : List RnaQuantificationRow)
    (pageToken : Nat) (pageSize : Option Nat)
    (rnaQuantificationId : String) : List RnaQuantificationRow :=
  limitsSql pageToken pageSize (matchingRnaQuantificationRows table rnaQuantificationId)

/-- `SqliteRNABackend.getRnaQuantificationById` (lines 362-374).
`fetchone` yields the first matching row or `None`; the helper
`sqliteBackend.sqliteRow2Dict` (not under `src/`, modelled from its use)
dereferences the row and hence raises `AttributeError` on `None`, which
the source catches and converts into
`RnaQuantificationNotFoundException(rnaQuantificationId)`. -/
def getRnaQuantificationById (table : List RnaQuantificationRow)
    (rnaQuantificationId : String) : Except RnaError RnaQuantificationRow :=
  match (table.filter (fun r => r.id == rnaQuantificationId)).head? with
  | some row => Except.ok row
  | none => Except.error (RnaError.rnaQuantificationNotFound rnaQuantificationId)

/-- Spec-side comparison query for C2: the same scoped list with no
feature-id restriction at all (the `IN` clause absent). -/
def searchExpressionLevelsNoIdFilter (table : List ExpressionRow) (rnaQuantId : String)
    (pageToken : Nat) (pageSize : Option Nat) (threshold : ℚ) : List ExpressionRow :=
  limitsSql pageToken pageSize
    (table.filter (fun r =>
      r.rna_quantification_id == rnaQuantId && decide (threshold ≤ r.expression)))

/-- Spec-side comparison query for C5: the same scoped list with the
threshold clause omitted entirely. -/
def searchExpressionLevelsNoThreshold (table : List ExpressionRow) (rnaQuantId : String)
    (featureIds : List String) (pageToken : Nat) (pageSize : Option Nat) : List ExpressionRow :=
  limitsSql pageToken pageSize
    (table.filter (fun r =>
      r.rna_quantification_id == rnaQuantId
        && (featureIds.isEmpty || featureIds.contains r.feature_id)))

/-- A concrete `Expression` row with distinct `id` and `feature_id`
columns, normalized flag stored as the integer 1. -/
def rowE1 : ExpressionRow :=
  ⟨"e1", "level1", "f1", "rq1", 2, 1, 100, 5, 1, 1, 3⟩

/-- A concrete `Expression` row with normalized flag stored as 0. -/
def rowNorm0 : ExpressionRow :=
  ⟨"e0", "level0", "f0", "rq1", 1, 0, 7, 0, 0, 0, 0⟩

/-- A concrete `Expression` row whose stored expression value is
negative. -/
def rowNeg : ExpressionRow :=
  ⟨"e9", "levelNeg", "f9", "rq1", -1, 0, 0, 0, 0, 0, 0⟩

/-- A concrete `RnaQuantification` row. -/
def rqRow1 : RnaQuantificationRow :=
  ⟨"rq1", "name1", "desc1", "fs1,fs2", "", ""⟩

/-- A concrete `RnaQuantification` row whose list-valued columns are all
the empty string. -/
def rqRowEmpty : RnaQuantificationRow :=
  ⟨"rq2", "name2", "desc2", "", "", ""⟩

lemma mem_limitsSql {α : Type} {t : Nat} {sz : Option Nat} {l : List α} {a : α}
    (h : a ∈ limitsSql t sz l) : a ∈ l := by
  cases sz with
  | some k => exact List.mem_of_mem_drop (List.mem_of_mem_take h)
  | none => exact List.mem_of_mem_drop h

lemma limitsSql_nil {α : Type} (t : Nat) (sz : Option Nat) :
    limitsSql t sz ([] : List α) = [] := by
  cases sz <;> simp [limitsSql]

lemma limitsSql_spec {α : Type} (l : List α) (t k : Nat) :
    (∀ i : Nat, (limitsSql t (some k) l)[i]? = if i < k then l[t + i]? else none)
    ∧ (l.length ≤ t → limitsSql t (some k) l = [] ∧ limitsSql t none l = [])
    ∧ (∀ i : Nat, (limitsSql t none l)[i]? = l[t + i]?) := by
  refine ⟨?_, ?_, ?_⟩
  · intro i
    show ((l.drop t).take k)[i]? = _
    rw [List.getElem?_take]
    by_cases h : i < k <;> simp [h, List.getElem?_drop]
  · intro h
    have hd : l.drop t = [] := List.drop_eq_nil_of_le h
    exact ⟨by show (l.drop t).take k = []; rw [hd, List.take_nil], hd⟩
  · intro i
    exact List.getElem?_drop l t i

/-- Claim C1 (code-bug evidence): hydrating the concrete `Expression` row
`rowE1`, whose `id` column is "e1" and whose `feature_id` column is "f1",
yields an `ExpressionLevel` whose feature id is "e1" — the row's `id`
column — and the transfer object exposes that same value, which differs
from the row's `feature_id` column.  The store-row-to-transfer-object
round trip of the feature id is therefore not lossless. -/
theorem expressionLevel_featureId_from_id_column :
    (ExpressionLevel.init rowE1).featureId = "e1"
    ∧ (AbstractExpressionLevel.toProtocolElement "cid" "rqcid"
        (ExpressionLevel.init rowE1)).feature_id = "e1"
    ∧ rowE1.feature_id = "f1"
    ∧ (AbstractExpressionLevel.toProtocolElement "cid" "rqcid"
        (ExpressionLevel.init rowE1)).feature_id ≠ rowE1.feature_id :=
  ⟨rfl, rfl, rfl, by decide⟩

/-- Claim C7: hydration converts the stored integer `is_normalized`
column to a logical boolean: 1 hydrates to `true` and 0 hydrates to
`false`. -/
theorem expressionLevel_isNormalized_coercion (record : ExpressionRow) :
    (record.is_normalized = 1 → (ExpressionLevel.init record).isNormalized = true)
    ∧ (record.is_normalized = 0 → (ExpressionLevel.init record).isNormalized = false) := by
  constructor <;> intro h <;> simp [ExpressionLevel.init, h]

/-- Witness for C7 at the concrete rows `rowE1` (stored 1) and `rowNorm0`
(stored 0). -/
theorem expressionLevel_isNormalized_coercion_witness :
    (ExpressionLevel.init rowE1).isNormalized = true
    ∧ (ExpressionLevel.init rowNorm0).isNormalized = false :=
  ⟨(expressionLevel_isNormalized_coercion rowE1).1 rfl,
   (expressionLevel_isNormalized_coercion rowNorm0).2 rfl⟩

/-- Claim C8: after `addRnaQuantMetadata` the program-references sequence
is empty, regardless of the contents of the row's `programs` column. -/
theorem addRnaQuantMetadata_programs_empty (fields : RnaQuantificationRow) :
    (addRnaQuantMetadata fields).programs = [] := by
  simp [addRnaQuantMetadata]

/-- Claim C9: an empty `feature_set_ids` column hydrates to the singleton
list holding the empty string (Python's `"".split(',') == ['']`), while
empty `read_group_ids` and `programs` columns hydrate to the empty list:
the empty-string-means-none convention is applied to `read_group_ids` and
`programs` but not to `feature_set_ids`. -/
theorem addRnaQuantMetadata_emptyString_convention (fields : RnaQuantificationRow) :
    (fields.feature_set_ids = "" → (addRnaQuantMetadata fields).featureSetIds = [""])
    ∧ (fields.read_group_ids = "" → (addRnaQuantMetadata fields).readGroupIds = [])
    ∧ (fields.programs = "" → (addRnaQuantMetadata fields).programs = []) := by
  refine ⟨?_, ?_, ?_⟩ <;> intro h <;> simp [addRnaQuantMetadata, h]
  decide

/-- Witness for C9 at the concrete row `rqRowEmpty`, all of whose
list-valued columns are the empty string. -/
theorem addRnaQuantMetadata_emptyString_convention_witness :
    (addRnaQuantMetadata rqRowEmpty).featureSetIds = [""]
    ∧ (addRnaQuantMetadata rqRowEmpty).readGroupIds = []
    ∧ (addRnaQuantMetadata rqRowEmpty).programs = [] :=
  ⟨(addRnaQuantMetadata_emptyString_convention rqRowEmpty).1 rfl,
   (addRnaQuantMetadata_emptyString_convention rqRowEmpty).2.1 rfl,
   (addRnaQuantMetadata_emptyString_convention rqRowEmpty).2.2 rfl⟩

/-- Claim C2: with an empty feature-id filter list the expression search
returns exactly the rows of the unrestricted query, and with a non-empty
filter list every returned row's `feature_id` column is a member of the
list. -/
theorem searchExpressionLevelsInDb_idFilterSemantics
    (table : List ExpressionRow) (rnaQuantId : String) (pageToken : Nat)
    (pageSize : Option Nat) (threshold : ℚ) :
    searchExpressionLevelsInDb table rnaQuantId [] pageToken pageSize threshold
      = searchExpressionLevelsNoIdFilter table rnaQuantId pageToken pageSize threshold
    ∧ ∀ featureIds : List String, featureIds ≠ [] →
        ∀ r ∈ searchExpressionLevelsInDb table rnaQuantId featureIds pageToken
            pageSize threshold,
          r.feature_id ∈ featureIds := by
  constructor
  · unfold searchExpressionLevelsInDb searchExpressionLevelsNoIdFilter
      matchingExpressionRows
    congr 1
    apply List.filter_congr
    intro a _
    simp
  · intro featureIds hne r hr
    unfold searchExpressionLevelsInDb at hr
    have hm := mem_limitsSql hr
    unfold matchingExpressionRows at hm
    have hp := (List.mem_filter.mp hm).2
    simp only [Bool.and_eq_true, Bool.or_eq_true] at hp
    rcases hp.2 with hempty | hcontains
    · exact absurd (by simpa using hempty) hne
    · simpa using hcontains

/-- Witness for C2: applied to the one-row table `[rowE1]` with the
non-empty filter list `["f1"]`, the returned row's feature id is a member
of the list, and the empty-filter query agrees with the unrestricted
query. -/
theorem searchExpressionLevelsInDb_idFilterSemantics_witness :
    searchExpressionLevelsInDb [rowE1] "rq1" [] 0 none 0
      = searchExpressionLevelsNoIdFilter [rowE1] "rq1" 0 none 0
    ∧ rowE1.feature_id ∈ ["f1"] :=
  ⟨(searchExpressionLevelsInDb_idFilterSemantics [rowE1] "rq1" 0 none 0).1,
   (searchExpressionLevelsInDb_idFilterSemantics [rowE1] "rq1" 0 none 0).2
     ["f1"] (by decide) rowE1 (by decide)⟩

/-- Claim C4: no `ExpressionLevel` returned by `getExpressionLevels` has
an expression value strictly below the supplied threshold. -/
theorem getExpressionLevels_threshold
    (table : List ExpressionRow) (rnaQuantID : String) (pageToken : Nat)
    (pageSize : Option Nat) (threshold : ℚ) (featureIds : List String) :
    ∀ e ∈ getExpressionLevels table rnaQuantID pageToken pageSize threshold
        featureIds,
      ¬ e.expression < threshold := by
  intro e he
  unfold getExpressionLevels at he
  obtain ⟨r, hr, rfl⟩ := List.mem_map.mp he
  unfold searchExpressionLevelsInDb at hr
  have hm := mem_limitsSql hr
  unfold matchingExpressionRows at hm
  have hp := (List.mem_filter.mp hm).2
  simp only [Bool.and_eq_true, decide_eq_true_eq] at hp
  exact not_lt.mpr hp.1.2

/-- Witness for C4: the hydrated row `rowE1` returned at threshold 1 has
expression value not below 1. -/
theorem getExpressionLevels_threshold_witness :
    ¬ (ExpressionLevel.init rowE1).expression < (1 : ℚ) :=
  getExpressionLevels_threshold [rowE1] "rq1" 0 none 1 []
    (ExpressionLevel.init rowE1) (by decide)

/-- Claim C10: when no row of the `Expression` table carries the searched
quantification id, `searchExpressionLevelsInDb` and `getExpressionLevels`
both return the empty list; these list queries are total and have no
not-found raise path. -/
theorem searchExpressionLevelsInDb_nonexistentScope
    (table : List ExpressionRow) (rnaQuantId : String) (featureIds : List String)
    (pageToken : Nat) (pageSize : Option Nat) (threshold : ℚ)
    (h : ∀ r ∈ table, r.rna_quantification_id ≠ rnaQuantId) :
    searchExpressionLevelsInDb table rnaQuantId featureIds pageToken pageSize
        threshold = []
    ∧ getExpressionLevels table rnaQuantId pageToken pageSize threshold
        featureIds = [] := by
  have hm : matchingExpressionRows table rnaQuantId featureIds threshold = [] := by
    unfold matchingExpressionRows
    apply List.filter_eq_nil_iff.mpr
    intro a ha
    simp [h a ha]
  constructor
  · unfold searchExpressionLevelsInDb
    rw [hm]
    exact limitsSql_nil pageToken pageSize
  · unfold getExpressionLevels searchExpressionLevelsInDb
    rw [hm, limitsSql_nil]
    rfl

/-- Witness for C10: searching the one-row table `[rowE1]` for the absent
quantification id "rqX" yields the empty list at both layers. -/
theorem searchExpressionLevelsInDb_nonexistentScope_witness :
    searchExpressionLevelsInDb [rowE1] "rqX" [] 0 none 0 = []
    ∧ getExpressionLevels [rowE1] "rqX" 0 none 0 [] = [] :=
  searchExpressionLevelsInDb_nonexistentScope [rowE1] "rqX" [] 0 none 0
    (by decide)

/-- Claim C3: for both list-query shapes, a query with `pageSize = k` and
`pageToken = t` returns exactly the matching rows at positions
`[t, t + k)` in store order, a `pageToken` at or past the number of
matching rows yields the empty result, and an unset `pageSize` returns
all matching rows from position `t` onward. -/
theorem listQuery_pagination
    (etable : List ExpressionRow) (rnaQuantId : String) (featureIds : List String)
    (threshold : ℚ) (qtable : List RnaQuantificationRow)
    (rnaQuantificationId : String) (t k : Nat) :
    (∀ i : Nat,
      (searchExpressionLevelsInDb etable rnaQuantId featureIds t (some k) threshold)[i]?
        = if i < k then
            (matchingExpressionRows etable rnaQuantId featureIds threshold)[t + i]?
          else none)
    ∧ ((matchingExpressionRows etable rnaQuantId featureIds threshold).length ≤ t →
        searchExpressionLevelsInDb etable rnaQuantId featureIds t (some k) threshold = []
        ∧ searchExpressionLevelsInDb etable rnaQuantId featureIds t none threshold = [])
    ∧ (∀ i : Nat,
      (searchExpressionLevelsInDb etable rnaQuantId featureIds t none threshold)[i]?
        = (matchingExpressionRows etable rnaQuantId featureIds threshold)[t + i]?)
    ∧ (∀ i : Nat,
      (searchRnaQuantificationsInDb qtable t (some k) rnaQuantificationId)[i]?
        = if i < k then
            (matchingRnaQuantificationRows qtable rnaQuantificationId)[t + i]?
          else none)
    ∧ ((matchingRnaQuantificationRows qtable rnaQuantificationId).length ≤ t →
        searchRnaQuantificationsInDb qtable t (some k) rnaQuantificationId = []
        ∧ searchRnaQuantificationsInDb qtable t none rnaQuantificationId = [])
    ∧ (∀ i : Nat,
      (searchRnaQuantificationsInDb qtable t none rnaQuantificationId)[i]?
        = (matchingRnaQuantificationRows qtable rnaQuantificationId)[t + i]?) := by
  obtain ⟨h1, h2, h3⟩ :=
    limitsSql_spec (matchingExpressionRows etable rnaQuantId featureIds threshold) t k
  obtain ⟨h4, h5, h6⟩ :=
    limitsSql_spec (matchingRnaQuantificationRows qtable rnaQuantificationId) t k
  exact ⟨h1, h2, h3, h4, h5, h6⟩

/-- Witness for C3: both searches over one-row tables with an
out-of-range `pageToken = 5` return the empty list, with and without a
page size. -/
theorem listQuery_pagination_witness :
    searchExpressionLevelsInDb [rowE1] "rq1" [] 5 (some 2) 0 = []
    ∧ searchExpressionLevelsInDb [rowE1] "rq1" [] 5 none 0 = []
    ∧ searchRnaQuantificationsInDb [rqRow1] 5 (some 2) "" = []
    ∧ searchRnaQuantificationsInDb [rqRow1] 5 none "" = [] :=
  ⟨((listQuery_pagination [rowE1] "rq1" [] 0 [rqRow1] "" 5 2).2.1 (by decide)).1,
   ((listQuery_pagination [rowE1] "rq1" [] 0 [rqRow1] "" 5 2).2.1 (by decide)).2,
   ((listQuery_pagination [rowE1] "rq1" [] 0 [rqRow1] "" 5 2).2.2.2.2.1 (by decide)).1,
   ((listQuery_pagination [rowE1] "rq1" [] 0 [rqRow1] "" 5 2).2.2.2.2.1 (by decide)).2⟩

/-- Counterexample for C5: on a table holding one row with a negative
stored expression value, the query with the default threshold 0 drops the
row while the query with the threshold clause omitted returns it, so the
two are not observationally equal for every stored expression value. -/
theorem searchExpressionLevelsInDb_defaultThreshold_counterexample :
    searchExpressionLevelsInDb [rowNeg] "rq1" [] 0 none 0 = []
    ∧ searchExpressionLevelsNoThreshold [rowNeg] "rq1" [] 0 none = [rowNeg]
    ∧ searchExpressionLevelsInDb [rowNeg] "rq1" [] 0 none 0
        ≠ searchExpressionLevelsNoThreshold [rowNeg] "rq1" [] 0 none :=
  ⟨by decide, by decide, by decide⟩

/-- Claim C5 as amended: when every stored expression value is
non-negative, the query with the default threshold 0 returns exactly the
rows of the query with the threshold clause omitted entirely. -/
theorem searchExpressionLevelsInDb_defaultThreshold
    (table : List ExpressionRow) (rnaQuantId : String) (featureIds : List String)
    (pageToken : Nat) (pageSize : Option Nat)
    (h : ∀ r ∈ table, 0 ≤ r.expression) :
    searchExpressionLevelsInDb table rnaQuantId featureIds pageToken pageSize 0
      = searchExpressionLevelsNoThreshold table rnaQuantId featureIds pageToken
          pageSize := by
  unfold searchExpressionLevelsInDb searchExpressionLevelsNoThreshold
    matchingExpressionRows
  congr 1
  apply List.filter_congr
  intro a ha
  simp [h a ha]

/-- Witness for the amended C5 on the one-row table `[rowE1]`, whose
stored expression value 2 is non-negative. -/
theorem searchExpressionLevelsInDb_defaultThreshold_witness :
    searchExpressionLevelsInDb [rowE1] "rq1" [] 0 none 0
      = searchExpressionLevelsNoThreshold [rowE1] "rq1" [] 0 none :=
  searchExpressionLevelsInDb_defaultThreshold [rowE1] "rq1" [] 0 none (by decide)

/-- Claim C6: a point lookup for a quantification id absent from the
`RnaQuantification` table yields the typed not-found error carrying that
offending id, never a partial or empty result. -/
theorem getRnaQuantificationById_notFound
    (table : List RnaQuantificationRow) (rnaQuantificationId : String)
    (h : ∀ r ∈ table, r.id ≠ rnaQuantificationId) :
    getRnaQuantificationById table rnaQuantificationId
      = Except.error (RnaError.rnaQuantificationNotFound rnaQuantificationId) := by
  unfold getRnaQuantificationById
  have hf : table.filter (fun r => r.id == rnaQuantificationId) = [] := by
    apply List.filter_eq_nil_iff.mpr
    intro a ha
    simp [h a ha]
  rw [hf]
  rfl

/-- Witness for C6: looking up the absent id "missing" in the one-row
table `[rqRow1]` yields the typed error carrying "missing". -/
theorem getRnaQuantificationById_notFound_witness :
    getRnaQuantificationById [rqRow1] "missing"
      = Except.error (RnaError.rnaQuantificationNotFound "missing") :=
  getRnaQuantificationById_notFound [rqRow1] "missing" (by decide)
